import Mathlib

/-
Verification of the risk-scoring and recommendation engine of the Agent Chopra
repository.  Two near-duplicate Python modules are embedded:

* `AlpacaBot`     — src/alpaca_bot/risk_profiler.py   ("Enhanced Risk Profiler",
                    3-question weighted assessment, simplified 9-symbol universe)
* `RootProfiler`  — src/risk_profiler.py              (26-symbol universe,
                    market-data-driven recommendation strengths)

Python numbers are modelled as exact rationals (ℚ).  Where the observable result
depends on IEEE-754 binary64 rounding — the questionnaire scoring
`assess_risk_profile` (whose behaviour at rounding ties depends on it) and the
portfolio arithmetic of `calculate_portfolio_risk_score` (whose accumulated
weights need not sum to exactly 1) — the double-precision evaluation is modelled
exactly: `fl` below rounds a rational to the nearest binary64 value and every
float operation of those code paths is wrapped in it.  The recommendation-engine
arithmetic (strength bonuses, clamps, allocations) is kept in plain ℚ: the
properties proved about it are structural (filter membership, clamps, sort
order, lengths) and hold irrespective of rounding.  Python dicts are modelled as
association lists in insertion order, Python's stable `list.sort` as insertion
sort with a non-strict comparison.
-/

unseal Rat.add Rat.mul Rat.inv Rat.sub

set_option maxHeartbeats 4000000
set_option maxRecDepth 100000

/-- Round a rational to the nearest integer, ties to even.  This is exactly what
Python's `round(x)` does on a float `x` (CPython rounds the exact value of the
double, ties to even). -/
def roundHalfEven (q : ℚ) : ℤ :=
  let f := q.floor
  let r := q - f
  if r < 1/2 then f
  else if 1/2 < r then f + 1
  else if f % 2 = 0 then f else f + 1

/-- Python's `round(x, n)` for a nonnegative number of digits: round
`x * 10^n` to the nearest integer (ties to even) and scale back. -/
def pyRoundTo (n : ℕ) (q : ℚ) : ℚ := (roundHalfEven (q * 10 ^ n) : ℚ) / 10 ^ n

/-- Floor of `log₂ x` for `1 ≤ x`, by repeated halving.  Fuel-bounded so that the
kernel can evaluate it; the fuel covers the whole binary64 exponent range. -/
def log2Down : ℕ → ℚ → ℤ
  | 0, _ => 0
  | fuel + 1, x => if x < 2 then 0 else log2Down fuel (x / 2) + 1

/-- Floor of `log₂ x` for `0 < x < 1`, by repeated doubling (fuel-bounded). -/
def log2Up : ℕ → ℚ → ℤ
  | 0, _ => 0
  | fuel + 1, x => if 1 ≤ x then 0 else log2Up fuel (x * 2) - 1

/-- Floor of `log₂ x` for positive `x` in the binary64 range. -/
def ilog2 (x : ℚ) : ℤ :=
  if 1 ≤ x then log2Down 1100 x else log2Up 1100 x

/-- Round a positive rational to the nearest IEEE-754 binary64 value
(round-to-nearest, ties-to-even), returned as an exact rational: scale into the
53-bit mantissa range, round to an integer mantissa, scale back. -/
def flPos (x : ℚ) : ℚ :=
  let e : ℤ := ilog2 x
  (roundHalfEven (x * 2 ^ (52 - e)) : ℚ) * 2 ^ (e - 52)

/-- Round a rational to the nearest IEEE-754 binary64 value, as an exact
rational.  Valid on the normal (non-overflowing, non-subnormal) range, which
covers every value arising in the risk-profiler arithmetic. -/
def fl (x : ℚ) : ℚ :=
  if x = 0 then 0 else if 0 < x then flPos x else -flPos (-x)

/-- Python's `str.lower()`, restricted to the ASCII strings appearing here. -/
def pyLower (s : String) : String := ⟨s.data.map Char.toLower⟩

/-- Python's `str.replace('_', ' ')` (single-character pattern). -/
def pyReplaceUnderscore (s : String) : String :=
  ⟨s.data.map fun c => if c = '_' then ' ' else c⟩

/-- Python's `str.title()`: upper-case every letter that follows a non-letter,
lower-case the other letters. -/
def pyTitle (s : String) : String :=
  (s.data.foldl
    (fun (acc : String × Bool) ch =>
      let isAl := ch.isAlpha
      let ch' := if isAl && !acc.2 then ch.toUpper else if isAl then ch.toLower else ch
      (acc.1.push ch', isAl))
    ("", false)).1

/-- Python's builtin `sum` over a list of floats: a left fold of correctly
rounded binary64 additions starting from 0. -/
def flSum (l : List ℚ) : ℚ := l.foldl (fun acc x => fl (acc + x)) 0

/-- Python dict update `m[k] = m.get(k, 0) + v` in binary64 arithmetic: add `v`
to the entry for `k` with a correctly rounded float addition, keeping insertion
order (a fresh key is appended at the end with value `0 + v`). -/
def dictAdd (m : List (String × ℚ)) (k : String) (v : ℚ) : List (String × ℚ) :=
  if (m.lookup k).isSome then
    m.map fun p => if p.1 = k then (p.1, fl (p.2 + v)) else p
  else m ++ [(k, fl (0 + v))]

/-- Python's `max()` over a list of values (insertion order of a dict's values);
`0` on the empty list, which the call sites guard against. -/
def pyMax : List ℚ → ℚ
  | [] => 0
  | [x] => x
  | x :: y :: xs => max x (pyMax (y :: xs))

/-- Shared holding record: the `symbol`/`market_value` fields of the position
dicts consumed by `calculate_portfolio_risk_score` in both modules. -/
structure Position where
  symbol : String
  market_value : ℚ
deriving DecidableEq

/-- Body of the portfolio loop shared by both `calculate_portfolio_risk_score`
implementations, in binary64 arithmetic: `weight = market_value / total` is a
rounded float division, `weighted_risk += stock_risk * weight` a rounded
multiplication followed by a rounded addition, and the sector dict accumulates
rounded additions.  `riskOf`/`sectorNameOf` are the module's universe lookups. -/
def portfolioStep (riskOf : String → ℤ) (sectorNameOf : String → String) (total : ℚ)
    (st : ℚ × List (String × ℚ)) (pos : Position) : ℚ × List (String × ℚ) :=
  let weight := fl (pos.market_value / total)
  (fl (st.1 + fl ((riskOf pos.symbol : ℚ) * weight)),
   dictAdd st.2 (sectorNameOf pos.symbol) weight)

/-- Modelled from the spec (claim C10): the exact (real-arithmetic)
value-weighted average of the looked-up risk ratings — the mathematical content
of the weighted risk that the program accumulates in binary64; compared against
the source's rounded accumulation. -/
def exactWeightedRisk (riskOf : String → ℤ) (positions : List Position) (total : ℚ) : ℚ :=
  (positions.map fun p => (riskOf p.symbol : ℚ) * (p.market_value / total)).sum

/-- The ten risk levels (identical in src/alpaca_bot/risk_profiler.py and in
src/alpaca_bot/database/models.py, whence src/risk_profiler.py imports them). -/
inductive RiskLevel where
  | VERY_LOW | LOW | LOW_MODERATE | MODERATE | MODERATE_HIGH
  | HIGH | HIGH_AGGRESSIVE | AGGRESSIVE | VERY_AGGRESSIVE | EXTREME
deriving DecidableEq

/-- Python's `RiskLevel.name` (the enum member name). -/
def RiskLevel.pyName : RiskLevel → String
  | .VERY_LOW => "VERY_LOW"
  | .LOW => "LOW"
  | .LOW_MODERATE => "LOW_MODERATE"
  | .MODERATE => "MODERATE"
  | .MODERATE_HIGH => "MODERATE_HIGH"
  | .HIGH => "HIGH"
  | .HIGH_AGGRESSIVE => "HIGH_AGGRESSIVE"
  | .AGGRESSIVE => "AGGRESSIVE"
  | .VERY_AGGRESSIVE => "VERY_AGGRESSIVE"
  | .EXTREME => "EXTREME"

namespace AlpacaBot

/-- Sector enum of src/alpaca_bot/risk_profiler.py. -/
inductive Sector where
  | TECHNOLOGY | HEALTHCARE | FINANCIALS | CONSUMER_DISCRETIONARY | CONSUMER_STAPLES
  | ENERGY | UTILITIES | MATERIALS | INDUSTRIALS | REAL_ESTATE | COMMUNICATION
deriving DecidableEq

/-- Python's `Sector.value` strings. -/
def Sector.value : Sector → String
  | .TECHNOLOGY => "Technology"
  | .HEALTHCARE => "Healthcare"
  | .FINANCIALS => "Financials"
  | .CONSUMER_DISCRETIONARY => "Consumer Discretionary"
  | .CONSUMER_STAPLES => "Consumer Staples"
  | .ENERGY => "Energy"
  | .UTILITIES => "Utilities"
  | .MATERIALS => "Materials"
  | .INDUSTRIALS => "Industrials"
  | .REAL_ESTATE => "Real Estate"
  | .COMMUNICATION => "Communication Services"

/-- The `RiskProfile` dataclass of src/alpaca_bot/risk_profiler.py. -/
structure RiskProfile where
  first_name : String
  last_name : String
  score : ℤ
  level : RiskLevel
  description : String
  allocation : List (String × ℚ)
  max_position_size : ℚ
  recommended_sectors : List Sector
  avoid_sectors : List Sector
  trading_strategy : String := "Conservative"
  automated_trading_enabled : Bool := false
  max_daily_trades : ℤ := 3
  stop_loss_percentage : ℚ := 5
deriving DecidableEq

/-- The `StockRecommendation` dataclass of src/alpaca_bot/risk_profiler.py. -/
structure StockRecommendation where
  symbol : String
  name : String
  sector : Sector
  risk_rating : ℤ
  recommendation_strength : ℚ
  target_allocation : ℚ
  reasoning : String
  current_price : ℚ
  target_price : ℚ
deriving DecidableEq

/-- Entry of the stock universe dict: name, sector and risk rating. -/
structure StockInfo where
  name : String
  sector : Sector
  risk : ℤ
deriving DecidableEq

/-- `_initialize_risk_profiles`: the static ten-entry profile table. -/
def profile1 : RiskProfile :=
  { first_name := "", last_name := "", score := 1, level := .VERY_LOW,
    description := "Ultra-conservative investor seeking capital preservation",
    allocation := [("bonds", 70), ("cash", 20), ("stocks", 10)],
    max_position_size := 5/100,
    recommended_sectors := [.UTILITIES, .CONSUMER_STAPLES],
    avoid_sectors := [.TECHNOLOGY, .ENERGY] }

/-- Table entry for score 2. -/
def profile2 : RiskProfile :=
  { first_name := "", last_name := "", score := 2, level := .LOW,
    description := "Conservative investor with minimal risk tolerance",
    allocation := [("bonds", 60), ("stocks", 30), ("cash", 10)],
    max_position_size := 8/100,
    recommended_sectors := [.UTILITIES, .CONSUMER_STAPLES, .HEALTHCARE],
    avoid_sectors := [.TECHNOLOGY, .ENERGY] }

/-- Table entry for score 3. -/
def profile3 : RiskProfile :=
  { first_name := "", last_name := "", score := 3, level := .LOW_MODERATE,
    description := "Cautious investor with slight growth orientation",
    allocation := [("stocks", 40), ("bonds", 50), ("cash", 10)],
    max_position_size := 10/100,
    recommended_sectors := [.HEALTHCARE, .CONSUMER_STAPLES, .UTILITIES],
    avoid_sectors := [.ENERGY, .MATERIALS] }

/-- Table entry for score 4. -/
def profile4 : RiskProfile :=
  { first_name := "", last_name := "", score := 4, level := .MODERATE,
    description := "Balanced investor seeking steady growth",
    allocation := [("stocks", 50), ("bonds", 40), ("cash", 10)],
    max_position_size := 12/100,
    recommended_sectors := [.HEALTHCARE, .FINANCIALS, .CONSUMER_STAPLES],
    avoid_sectors := [.ENERGY] }

/-- Table entry for score 5. -/
def profile5 : RiskProfile :=
  { first_name := "", last_name := "", score := 5, level := .MODERATE_HIGH,
    description := "Growth-oriented investor with moderate risk tolerance",
    allocation := [("stocks", 60), ("bonds", 30), ("cash", 10)],
    max_position_size := 15/100,
    recommended_sectors := [.TECHNOLOGY, .HEALTHCARE, .FINANCIALS],
    avoid_sectors := [] }

/-- Table entry for score 6. -/
def profile6 : RiskProfile :=
  { first_name := "", last_name := "", score := 6, level := .HIGH,
    description := "Growth investor comfortable with volatility",
    allocation := [("stocks", 70), ("bonds", 20), ("cash", 10)],
    max_position_size := 18/100,
    recommended_sectors := [.TECHNOLOGY, .CONSUMER_DISCRETIONARY, .FINANCIALS],
    avoid_sectors := [] }

/-- Table entry for score 7. -/
def profile7 : RiskProfile :=
  { first_name := "", last_name := "", score := 7, level := .HIGH_AGGRESSIVE,
    description := "Aggressive growth investor seeking high returns",
    allocation := [("stocks", 80), ("bonds", 15), ("cash", 5)],
    max_position_size := 20/100,
    recommended_sectors := [.TECHNOLOGY, .ENERGY, .MATERIALS],
    avoid_sectors := [] }

/-- Table entry for score 8. -/
def profile8 : RiskProfile :=
  { first_name := "", last_name := "", score := 8, level := .AGGRESSIVE,
    description := "High-risk investor focused on capital appreciation",
    allocation := [("stocks", 85), ("bonds", 10), ("cash", 5)],
    max_position_size := 25/100,
    recommended_sectors := [.TECHNOLOGY, .ENERGY, .MATERIALS, .CONSUMER_DISCRETIONARY],
    avoid_sectors := [] }

/-- Table entry for score 9. -/
def profile9 : RiskProfile :=
  { first_name := "", last_name := "", score := 9, level := .VERY_AGGRESSIVE,
    description := "Very aggressive investor willing to accept high volatility",
    allocation := [("stocks", 90), ("bonds", 5), ("cash", 5)],
    max_position_size := 30/100,
    recommended_sectors := [.TECHNOLOGY, .ENERGY, .MATERIALS],
    avoid_sectors := [] }

/-- Table entry for score 10. -/
def profile10 : RiskProfile :=
  { first_name := "", last_name := "", score := 10, level := .EXTREME,
    description := "Extreme risk investor seeking maximum returns",
    allocation := [("stocks", 95), ("bonds", 0), ("cash", 5)],
    max_position_size := 35/100,
    recommended_sectors := [.TECHNOLOGY, .ENERGY, .MATERIALS],
    avoid_sectors := [] }

/-- The `risk_profiles` dict keyed by score. -/
def risk_profiles : List (ℤ × RiskProfile) :=
  [(1, profile1), (2, profile2), (3, profile3), (4, profile4), (5, profile5),
   (6, profile6), (7, profile7), (8, profile8), (9, profile9), (10, profile10)]

/-- `_initialize_sector_risks`: per-sector risk ratings. -/
def sector_risk_ratings : List (Sector × ℤ) :=
  [(.UTILITIES, 2), (.CONSUMER_STAPLES, 3), (.HEALTHCARE, 4), (.FINANCIALS, 5),
   (.INDUSTRIALS, 5), (.REAL_ESTATE, 6), (.COMMUNICATION, 6),
   (.CONSUMER_DISCRETIONARY, 7), (.MATERIALS, 8), (.TECHNOLOGY, 8), (.ENERGY, 9)]

/-- `_initialize_stock_universe`: the static stock universe, in dict insertion
order. -/
def stock_universe : List (String × StockInfo) :=
  [("KO", ⟨"Coca-Cola", .CONSUMER_STAPLES, 2⟩),
   ("PG", ⟨"Procter & Gamble", .CONSUMER_STAPLES, 2⟩),
   ("JNJ", ⟨"Johnson & Johnson", .HEALTHCARE, 3⟩),
   ("MSFT", ⟨"Microsoft", .TECHNOLOGY, 4⟩),
   ("AAPL", ⟨"Apple", .TECHNOLOGY, 5⟩),
   ("JPM", ⟨"JPMorgan Chase", .FINANCIALS, 5⟩),
   ("TSLA", ⟨"Tesla", .CONSUMER_DISCRETIONARY, 9⟩),
   ("NVDA", ⟨"NVIDIA", .TECHNOLOGY, 8⟩),
   ("AMD", ⟨"Advanced Micro Devices", .TECHNOLOGY, 8⟩)]

/-- The `user_data` dict consumed by `assess_risk_profile`; every key is read
with `.get` and a default, so each field is optional. -/
structure UserData where
  q1_risk_tolerance : Option ℤ := none
  q2_investment_experience : Option ℤ := none
  q3_time_horizon : Option ℤ := none
  first_name : Option String := none
  last_name : Option String := none
  trading_strategy : Option String := none
  automated_trading : Option Bool := none
  max_daily_trades : Option ℤ := none
  stop_loss_percentage : Option ℚ := none
deriving DecidableEq

/-- The binary64 value of the Python literal `0.5`. -/
def c05 : ℚ := fl (5/10)

/-- The binary64 value of the Python literal `0.3`. -/
def c03 : ℚ := fl (3/10)

/-- The binary64 value of the Python literal `0.2`. -/
def c02 : ℚ := fl (2/10)

/-- `risk_tolerance * 0.5 + experience * 0.3 + time_horizon * 0.2` evaluated in
binary64 arithmetic exactly as Python evaluates it: left-associated, every
multiplication and addition correctly rounded (`fl`).  The integer answers are
converted to doubles exactly (they are far below 2^53 at every call site). -/
def weighted_score (rt ex th : ℤ) : ℚ :=
  fl (fl (fl ((rt : ℚ) * c05) + fl ((ex : ℚ) * c03)) + fl ((th : ℚ) * c02))

/-- `max(1, min(10, round(weighted_score)))` — the clamped final score. -/
def final_score (rt ex th : ℤ) : ℤ :=
  max 1 (min 10 (roundHalfEven (weighted_score rt ex th)))

/-- `assess_risk_profile` of src/alpaca_bot/risk_profiler.py: read the three
answers (default 5), compute the clamped weighted score, look the template up in
`risk_profiles` (falling back to the score-5 template) and overlay the
caller-supplied personal fields on a copy of it. -/
def assess_risk_profile (user_data : UserData) : ℤ × RiskProfile :=
  let risk_tolerance := user_data.q1_risk_tolerance.getD 5
  let experience := user_data.q2_investment_experience.getD 5
  let time_horizon := user_data.q3_time_horizon.getD 5
  let fs := final_score risk_tolerance experience time_horizon
  let base_profile := (risk_profiles.lookup fs).getD profile5
  (fs,
   { first_name := user_data.first_name.getD "",
     last_name := user_data.last_name.getD "",
     score := fs,
     level := base_profile.level,
     description := base_profile.description,
     allocation := base_profile.allocation,
     max_position_size := base_profile.max_position_size,
     recommended_sectors := base_profile.recommended_sectors,
     avoid_sectors := base_profile.avoid_sectors,
     trading_strategy := user_data.trading_strategy.getD "Conservative",
     automated_trading_enabled := user_data.automated_trading.getD false,
     max_daily_trades := user_data.max_daily_trades.getD 3,
     stop_loss_percentage := user_data.stop_loss_percentage.getD 5 })

/-- `self.stock_universe.get(symbol, {'risk': 5, 'sector': Sector.TECHNOLOGY})`:
universe lookup with the hard-coded default (the default dict carries no name). -/
def stock_info (symbol : String) : StockInfo :=
  (stock_universe.lookup symbol).getD ⟨"", .TECHNOLOGY, 5⟩

/-- Result dict of `calculate_portfolio_risk_score`. -/
structure PortfolioRisk where
  score : ℚ
  level : String
  diversification : ℚ
deriving DecidableEq

/-- The `risk_levels` range table of `calculate_portfolio_risk_score`. -/
def risk_levels : List ((ℤ × ℤ) × String) :=
  [((1, 2), "Very Low"), ((2, 3), "Low"), ((3, 4), "Low-Moderate"),
   ((4, 5), "Moderate"), ((5, 6), "Moderate-High"), ((6, 7), "High"),
   ((7, 8), "High-Aggressive"), ((8, 9), "Aggressive"),
   ((9, 10), "Very Aggressive"), ((10, 11), "Extreme")]

/-- The value-weighted risk and sector-weight dict accumulated by the loop of
`calculate_portfolio_risk_score` (starting from `0` and the empty dict). -/
def portfolio_totals (positions : List Position) (total_value : ℚ) :
    ℚ × List (String × ℚ) :=
  positions.foldl
    (portfolioStep (fun s => (stock_info s).risk) (fun s => (stock_info s).sector.value)
      total_value)
    (0, [])

/-- `calculate_portfolio_risk_score` of src/alpaca_bot/risk_profiler.py.  Guard
clauses for the empty and zero-value portfolio, then the binary64 value-weighted
average of the per-symbol risk ratings, `1 - max(sector weights)` (a rounded
float subtraction) as diversification, and a range-table lookup for the level
name.  `round(weighted_risk, 1)` is the correctly rounded one-decimal value
converted back to the nearest double. -/
def calculate_portfolio_risk_score (positions : List Position) : PortfolioRisk :=
  if positions = [] then ⟨0, "No Positions", 0⟩
  else
    let total_value := flSum (positions.map (·.market_value))
    if total_value = 0 then ⟨0, "No Value", 0⟩
    else
      let t := portfolio_totals positions total_value
      let weighted_risk := t.1
      let sector_allocation := t.2
      let diversification :=
        if sector_allocation = [] then 0
        else fl (1 - pyMax (sector_allocation.map (·.2)))
      let risk_level :=
        ((risk_levels.find? fun e =>
            decide ((e.1.1 : ℚ) ≤ weighted_risk) && decide (weighted_risk < (e.1.2 : ℚ))).map
          (·.2)).getD "Moderate"
      ⟨fl (pyRoundTo 1 weighted_risk), risk_level, diversification⟩

/-- The filter of `get_stock_recommendations`: drop owned symbols, keep risk
ratings up to `score + 2`, and drop avoided sectors (the `not avoid_sectors or
sector not in avoid_sectors` condition, written as in the source). -/
def suitable_stocks (risk_profile : RiskProfile) (current_positions : List String) :
    List (String × StockInfo) :=
  stock_universe.filter fun e =>
    !(current_positions.contains e.1) &&
    (decide (e.2.risk ≤ risk_profile.score + 2) &&
     (risk_profile.avoid_sectors.isEmpty || !(risk_profile.avoid_sectors.contains e.2.sector)))

/-- `get_stock_recommendations` of src/alpaca_bot/risk_profiler.py: take the
first five suitable stocks (in universe order; this version does not sort) and
build a recommendation for each, with
`strength = max(0.1, min(1.0, (score - risk + 5) / 10))`,
`target_allocation = min(max_position_size, 0.1)` and placeholder prices. -/
def get_stock_recommendations (risk_profile : RiskProfile)
    (current_positions : List String) : List StockRecommendation :=
  ((suitable_stocks risk_profile current_positions).take 5).map fun e =>
    let strength := min 1 (((risk_profile.score : ℚ) - (e.2.risk : ℚ) + 5) / 10)
    { symbol := e.1,
      name := e.2.name,
      sector := e.2.sector,
      risk_rating := e.2.risk,
      recommendation_strength := max (1/10) strength,
      target_allocation := min risk_profile.max_position_size (1/10),
      reasoning := "Matches your " ++
        pyLower (pyReplaceUnderscore risk_profile.level.pyName) ++ " risk profile",
      current_price := 100,
      target_price := 110 }

end AlpacaBot

namespace RootProfiler

/-- Sector enum of src/alpaca_bot/database/models.py, which src/risk_profiler.py
imports (11 members; `len(Sector) = 11`). -/
inductive Sector where
  | TECHNOLOGY | HEALTHCARE | FINANCIALS | CONSUMER_DISCRETIONARY | CONSUMER_STAPLES
  | ENERGY | UTILITIES | INDUSTRIALS | MATERIALS | REAL_ESTATE | TELECOMMUNICATIONS
deriving DecidableEq

/-- Python's `Sector.value` strings (lower-case in database/models.py). -/
def Sector.value : Sector → String
  | .TECHNOLOGY => "technology"
  | .HEALTHCARE => "healthcare"
  | .FINANCIALS => "financials"
  | .CONSUMER_DISCRETIONARY => "consumer_discretionary"
  | .CONSUMER_STAPLES => "consumer_staples"
  | .ENERGY => "energy"
  | .UTILITIES => "utilities"
  | .INDUSTRIALS => "industrials"
  | .MATERIALS => "materials"
  | .REAL_ESTATE => "real_estate"
  | .TELECOMMUNICATIONS => "telecommunications"

/-- The eleven members of the `Sector` enum; `sectorMembers.length` models
Python's `len(Sector)`. -/
def sectorMembers : List Sector :=
  [.TECHNOLOGY, .HEALTHCARE, .FINANCIALS, .CONSUMER_DISCRETIONARY, .CONSUMER_STAPLES,
   .ENERGY, .UTILITIES, .INDUSTRIALS, .MATERIALS, .REAL_ESTATE, .TELECOMMUNICATIONS]

/-- The `RiskProfile` dataclass of src/risk_profiler.py (no personal fields). -/
structure RiskProfile where
  score : ℤ
  level : RiskLevel
  description : String
  allocation : List (String × ℚ)
  max_position_size : ℚ
  recommended_sectors : List Sector
  avoid_sectors : List Sector
deriving DecidableEq

/-- The `StockRecommendation` dataclass of src/risk_profiler.py. -/
structure StockRecommendation where
  symbol : String
  company_name : String
  sector : Sector
  risk_rating : ℤ
  recommendation_strength : ℚ
  target_allocation : ℚ
  reasoning : String
  current_price : ℚ
  target_price : ℚ
deriving DecidableEq

/-- Entry of the stock universe dict. -/
structure StockInfo where
  name : String
  sector : Sector
  risk : ℤ
deriving DecidableEq

/-- The score-5 template of `_initialize_risk_profiles` in src/risk_profiler.py
(used as a concrete profile in witnesses below). -/
def profile5 : RiskProfile :=
  { score := 5, level := .MODERATE_HIGH,
    description := "Growth-oriented investor with moderate risk tolerance",
    allocation := [("stocks", 60), ("bonds", 30), ("cash", 10)],
    max_position_size := 15/100,
    recommended_sectors := [.TECHNOLOGY, .HEALTHCARE, .FINANCIALS, .INDUSTRIALS],
    avoid_sectors := [] }

/-- `_initialize_stock_universe` of src/risk_profiler.py, in dict insertion
order (26 entries). -/
def stock_universe : List (String × StockInfo) :=
  [("JNJ", ⟨"Johnson & Johnson", .HEALTHCARE, 2⟩),
   ("PG", ⟨"Procter & Gamble", .CONSUMER_STAPLES, 2⟩),
   ("KO", ⟨"Coca-Cola", .CONSUMER_STAPLES, 2⟩),
   ("NEE", ⟨"NextEra Energy", .UTILITIES, 3⟩),
   ("SO", ⟨"Southern Company", .UTILITIES, 2⟩),
   ("MSFT", ⟨"Microsoft", .TECHNOLOGY, 4⟩),
   ("AAPL", ⟨"Apple", .TECHNOLOGY, 5⟩),
   ("JPM", ⟨"JPMorgan Chase", .FINANCIALS, 5⟩),
   ("V", ⟨"Visa", .FINANCIALS, 4⟩),
   ("UNH", ⟨"UnitedHealth", .HEALTHCARE, 4⟩),
   ("HD", ⟨"Home Depot", .CONSUMER_DISCRETIONARY, 5⟩),
   ("WMT", ⟨"Walmart", .CONSUMER_STAPLES, 3⟩),
   ("GOOGL", ⟨"Alphabet", .TECHNOLOGY, 6⟩),
   ("AMZN", ⟨"Amazon", .CONSUMER_DISCRETIONARY, 7⟩),
   ("TSLA", ⟨"Tesla", .CONSUMER_DISCRETIONARY, 8⟩),
   ("NVDA", ⟨"NVIDIA", .TECHNOLOGY, 8⟩),
   ("META", ⟨"Meta Platforms", .TECHNOLOGY, 7⟩),
   ("NFLX", ⟨"Netflix", .CONSUMER_DISCRETIONARY, 7⟩),
   ("ARKK", ⟨"ARK Innovation ETF", .TECHNOLOGY, 9⟩),
   ("COIN", ⟨"Coinbase", .FINANCIALS, 10⟩),
   ("RIVN", ⟨"Rivian", .CONSUMER_DISCRETIONARY, 10⟩),
   ("PLTR", ⟨"Palantir", .TECHNOLOGY, 9⟩),
   ("SPY", ⟨"SPDR S&P 500", .FINANCIALS, 5⟩),
   ("QQQ", ⟨"Invesco QQQ", .TECHNOLOGY, 6⟩),
   ("VTI", ⟨"Vanguard Total Stock", .FINANCIALS, 5⟩),
   ("TLT", ⟨"iShares 20+ Year Treasury", .FINANCIALS, 3⟩),
   ("GLD", ⟨"SPDR Gold Shares", .MATERIALS, 4⟩)]

/-- `_is_risk_compatible`: allow stocks within plus-or-minus two risk levels. -/
def is_risk_compatible (stock_risk user_risk : ℤ) : Bool :=
  decide (|stock_risk - user_risk| ≤ 2)

/-- Abstraction of the per-symbol market data that `_create_stock_recommendation`
fetches from yfinance: the length of the 3-month price history, the last close,
the close 20 rows back, the mean volume of the last 5 rows, the overall mean
volume, the optional trailing P/E (absent both when `info` is empty and when the
key is missing), and the support/resistance levels that
`_estimate_target_price` derives from 20-day rolling extrema.  A recommendation
call receives this data through an oracle `String → Option MarketData`;
`none` models a yfinance failure (the exception path, which skips the symbol). -/
structure MarketData where
  histLen : ℕ
  lastClose : ℚ
  close20Ago : ℚ
  recentVolume : ℚ
  avgVolume : ℚ
  trailingPE : Option ℚ
  support : ℚ
  resistance : ℚ
deriving DecidableEq

/-- `_calculate_recommendation_strength`: base 0.5, risk-proximity bonus,
recommended-sector bonus, momentum/volume adjustments when at least 20 rows of
history exist, P/E bonus when a truthy trailing P/E lies in [10, 25]; clamped
to [0, 1]. -/
def calculate_recommendation_strength (stock_data : StockInfo)
    (risk_profile : RiskProfile) (d : MarketData) : ℚ :=
  let base : ℚ := 5/10
  let risk_diff := |stock_data.risk - risk_profile.score|
  let s1 := base + (if risk_diff = 0 then 2/10 else if risk_diff = 1 then 1/10 else 0)
  let s2 := s1 + (if stock_data.sector ∈ risk_profile.recommended_sectors then 2/10 else 0)
  let s3 :=
    if 20 ≤ d.histLen then
      let recent_return := d.lastClose / d.close20Ago - 1
      let sm := s2 + (if recent_return > 5/100 then 1/10
                      else if recent_return < -(5/100) then -(1/10) else 0)
      sm + (if d.recentVolume > d.avgVolume * (12/10) then 5/100 else 0)
    else s2
  let s4 := s3 +
    (match d.trailingPE with
     | none => 0
     | some pe => if pe ≠ 0 ∧ 10 ≤ pe ∧ pe ≤ 25 then 1/10 else 0)
  max 0 (min 1 s4)

/-- `_generate_recommendation_reasoning`: collect the reasons that fired and
join them with ". ". -/
def generate_recommendation_reasoning (stock_data : StockInfo)
    (risk_profile : RiskProfile) (strength : ℚ) : String :=
  let risk_diff := |stock_data.risk - risk_profile.score|
  let reasons₁ : List String :=
    if risk_diff ≤ 1 then
      ["Risk level (" ++ toString stock_data.risk ++ "/10) aligns well with your profile"]
    else []
  let reasons₂ :=
    if stock_data.sector ∈ risk_profile.recommended_sectors then
      reasons₁ ++ [pyTitle stock_data.sector.value ++ " sector matches your preferences"]
    else reasons₁
  let reasons₃ :=
    if strength > 7/10 then reasons₂ ++ ["Strong technical and fundamental indicators"]
    else if strength > 5/10 then reasons₂ ++ ["Positive momentum and solid fundamentals"]
    else reasons₂ ++ ["Decent fundamentals with growth potential"]
  String.intercalate ". " reasons₃

/-- `_estimate_target_price`: 10% default upside on short history, otherwise a
support/resistance-based target. -/
def estimate_target_price (d : MarketData) (current_price : ℚ) : ℚ :=
  if d.histLen < 50 then current_price * (11/10)
  else if current_price < (d.support + d.resistance) / 2 then
    min d.resistance (current_price * (115/100))
  else current_price * (108/100)

/-- `_create_stock_recommendation`: `none` when the market-data fetch fails or
the history is empty, otherwise the assembled recommendation with
`target_allocation = min(max_position_size, 0.05 + strength * 0.15)`. -/
def create_stock_recommendation (md : String → Option MarketData) (symbol : String)
    (stock_data : StockInfo) (risk_profile : RiskProfile) : Option StockRecommendation :=
  match md symbol with
  | none => none
  | some d =>
    if d.histLen = 0 then none
    else
      let current_price := d.lastClose
      let strength := calculate_recommendation_strength stock_data risk_profile d
      let target_allocation :=
        min risk_profile.max_position_size (5/100 + strength * (15/100))
      some
        { symbol := symbol,
          company_name := stock_data.name,
          sector := stock_data.sector,
          risk_rating := stock_data.risk,
          recommendation_strength := strength,
          target_allocation := target_allocation,
          reasoning := generate_recommendation_reasoning stock_data risk_profile strength,
          current_price := current_price,
          target_price := estimate_target_price d current_price }

/-- The `owned_symbols` set: the portfolio's symbols when a portfolio was passed
and owned stocks are excluded, empty otherwise. -/
def owned_symbols (current_portfolio : List Position) (exclude_owned : Bool) : List String :=
  if current_portfolio ≠ [] ∧ exclude_owned then current_portfolio.map (·.symbol) else []

/-- The `compatible_stocks` filter of `get_stock_recommendations`: drop owned
symbols, keep risk-compatible stocks whose sector is not avoided. -/
def compatible_stocks (risk_profile : RiskProfile) (owned : List String)
    (exclude_owned : Bool) : List (String × StockInfo) :=
  stock_universe.filter fun e =>
    !(exclude_owned && owned.contains e.1) &&
    (is_risk_compatible e.2.risk risk_profile.score &&
     (risk_profile.avoid_sectors.isEmpty || !(risk_profile.avoid_sectors.contains e.2.sector)))

/-- Comparison key used by `recommendations.sort(key=..., reverse=True)`:
`a` may precede `b` iff `b`'s strength is at most `a`'s.  Python's sort is
stable, which insertion sort with this non-strict relation reproduces. -/
def strengthGE (a b : StockRecommendation) : Prop :=
  b.recommendation_strength ≤ a.recommendation_strength

instance : DecidableRel strengthGE := fun a b =>
  inferInstanceAs (Decidable (b.recommendation_strength ≤ a.recommendation_strength))

instance : IsTotal StockRecommendation strengthGE :=
  ⟨fun a b => le_total b.recommendation_strength a.recommendation_strength⟩

instance : IsTrans StockRecommendation strengthGE :=
  ⟨fun _ _ _ h1 h2 => le_trans h2 h1⟩

/-- The recommendation list before sorting: one entry per compatible stock whose
market-data fetch succeeded, in universe iteration order. -/
def recommendation_candidates (md : String → Option MarketData)
    (risk_profile : RiskProfile) (current_portfolio : List Position)
    (exclude_owned : Bool) : List StockRecommendation :=
  (compatible_stocks risk_profile (owned_symbols current_portfolio exclude_owned)
      exclude_owned).filterMap
    fun e => create_stock_recommendation md e.1 e.2 risk_profile

/-- `get_stock_recommendations` of src/risk_profiler.py: filter, build
recommendations, sort descending by strength (stable), return the top 10. -/
def get_stock_recommendations (md : String → Option MarketData)
    (risk_profile : RiskProfile) (current_portfolio : List Position)
    (exclude_owned : Bool) : List StockRecommendation :=
  ((recommendation_candidates md risk_profile current_portfolio
      exclude_owned).insertionSort strengthGE).take 10

/-- `self.stock_universe.get(symbol, {})` followed by
`.get('risk', 5)` / `.get('sector', Sector.TECHNOLOGY)`. -/
def stock_info (symbol : String) : StockInfo :=
  (stock_universe.lookup symbol).getD ⟨"", .TECHNOLOGY, 5⟩

/-- Result dict of `calculate_portfolio_risk_score` in src/risk_profiler.py.
The guard-clause returns carry only the first three keys; they are modelled with
empty lists in the remaining fields. -/
structure PortfolioRisk where
  score : ℚ
  level : String
  diversification : ℚ
  sector_allocation : List (String × ℚ)
  recommendations : List String
deriving DecidableEq

/-- `_calculate_diversification_score`: 1 minus the normalised
Herfindahl-Hirschman index of the sector weights, clamped to [0, 1]; the
normalisation spans from perfect concentration (HHI 1) down to perfect
diversification across all `len(Sector)` sectors.  Evaluated in binary64:
each `weight ** 2`, the float `sum`, `1 / len(Sector)`, both subtractions, the
division and the final subtraction are correctly rounded. -/
def calculate_diversification_score (sector_weights : List (String × ℚ)) : ℚ :=
  if sector_weights = [] then 0
  else
    let hhi := flSum (sector_weights.map fun p => fl (p.2 ^ 2))
    let max_hhi : ℚ := 1
    let min_hhi : ℚ := fl (1 / (sectorMembers.length : ℚ))
    let diversification := fl (1 - fl (fl (hhi - min_hhi) / fl (max_hhi - min_hhi)))
    max 0 (min 1 diversification)

/-- `_get_risk_level_name`. -/
def get_risk_level_name (risk_score : ℤ) : String :=
  (([((1:ℤ), "Very Low Risk"), (2, "Low Risk"), (3, "Low-Moderate Risk"),
     (4, "Moderate Risk"), (5, "Moderate-High Risk"), (6, "High Risk"),
     (7, "High-Aggressive Risk"), (8, "Aggressive Risk"),
     (9, "Very Aggressive Risk"), (10, "Extreme Risk")] : List (ℤ × String)).lookup
    risk_score).getD "Moderate Risk"

/-- Percentage formatting standing in for Python's `f"{weight:.1%}"`. -/
def fmtPercent1 (w : ℚ) : String := toString (pyRoundTo 1 (w * 100)) ++ "%"

/-- `_get_portfolio_recommendations`: textual portfolio-improvement hints. -/
def get_portfolio_recommendations (risk_score : ℚ) (diversification_score : ℚ)
    (sector_weights : List (String × ℚ)) : List String :=
  let r1 : List String :=
    if diversification_score < 3/10 then ["Consider diversifying across more sectors"]
    else []
  let r2 := r1 ++ (sector_weights.filterMap fun p =>
    if p.2 > 4/10 then
      some ("High concentration in " ++ p.1 ++ " (" ++ fmtPercent1 p.2 ++ ") - consider reducing")
    else none)
  if risk_score > 8 then r2 ++ ["Portfolio risk is very high - consider adding defensive positions"]
  else if risk_score < 3 then
    r2 ++ ["Portfolio is very conservative - consider adding growth positions"]
  else r2

/-- The value-weighted risk and sector-weight dict accumulated by the loop of
`calculate_portfolio_risk_score` in src/risk_profiler.py. -/
def portfolio_totals (portfolio : List Position) (total_value : ℚ) :
    ℚ × List (String × ℚ) :=
  portfolio.foldl
    (portfolioStep (fun s => (stock_info s).risk) (fun s => (stock_info s).sector.value)
      total_value)
    (0, [])

/-- `calculate_portfolio_risk_score` of src/risk_profiler.py, with the float
`sum` for the total, the binary64 accumulation loop, and `round(·, 1)` /
`round(·, 2)` as correctly rounded decimal roundings converted back to the
nearest double. -/
def calculate_portfolio_risk_score (portfolio : List Position) : PortfolioRisk :=
  if portfolio = [] then ⟨0, "No Portfolio", 0, [], []⟩
  else
    let total_value := flSum (portfolio.map (·.market_value))
    if total_value = 0 then ⟨0, "No Value", 0, [], []⟩
    else
      let t := portfolio_totals portfolio total_value
      let weighted_risk := t.1
      let sector_weights := t.2
      let diversification_score := calculate_diversification_score sector_weights
      let risk_level := get_risk_level_name (roundHalfEven weighted_risk)
      ⟨fl (pyRoundTo 1 weighted_risk), risk_level,
       fl (pyRoundTo 2 diversification_score), sector_weights,
       get_portfolio_recommendations weighted_risk diversification_score sector_weights⟩

end RootProfiler

/-- Modelled from the spec (claim C3): the weighted sum
`risk_tolerance*0.5 + investment_experience*0.3 + time_horizon*0.2` in exact
real arithmetic, as the spec's formula reads. -/
def specWeightedSum (rt ex th : ℤ) : ℚ :=
  (rt : ℚ) * (5/10) + (ex : ℚ) * (3/10) + (th : ℚ) * (2/10)

/-- Modelled from the spec (claim C3): rounding to the nearest integer with
halves rounded up. -/
def specRoundHalfUp (q : ℚ) : ℤ := (q + 1/2).floor

/-- Modelled from the spec (claim C3): the claimed score — the exact weighted
sum rounded half-up, clamped to [1, 10]. -/
def specScoreRoundHalfUp (rt ex th : ℤ) : ℤ :=
  max 1 (min 10 (specRoundHalfUp (specWeightedSum rt ex th)))

/-- Comparison of the implemented score against the exact-arithmetic
ties-to-even rounding of the weighted sum: they agree everywhere on [1,10]³
except at the three answer triples where the binary64 evaluation of the
weighted sum falls just below the exact half and therefore rounds down. -/
def scoreAgreesWithExactRounding (rt ex th : ℤ) : Bool :=
  let exact := max 1 (min 10 (roundHalfEven (specWeightedSum rt ex th)))
  if (rt, ex, th) = (4, 9, 4) ∨ (rt, ex, th) = (6, 9, 9) ∨ (rt, ex, th) = (8, 9, 4) then
    decide (AlpacaBot.final_score rt ex th = exact - 1)
  else
    decide (AlpacaBot.final_score rt ex th = exact)

/-- Constant market-data oracle used as a test fixture: one row of history,
last close 100, no volume or P/E information. -/
def mdConst : String → Option RootProfiler.MarketData :=
  fun _ => some ⟨1, 100, 0, 0, 0, none, 0, 0⟩

/-- Market-data oracle that knows only the symbol AAPL (test fixture). -/
def mdAAPL : String → Option RootProfiler.MarketData :=
  fun s => if s = "AAPL" then some ⟨1, 100, 0, 0, 0, none, 0, 0⟩ else none

/-- Questionnaire input with answers (9, 8, 9) and no other fields (fixture for
the spec's worked example). -/
def u989 : AlpacaBot.UserData :=
  ⟨some 9, some 8, some 9, none, none, none, none, none, none⟩

/-- Questionnaire input with answers (3, 2, 2), whose weighted sum is exactly
2.5 (fixture for the rounding tie). -/
def u322 : AlpacaBot.UserData :=
  ⟨some 3, some 2, some 2, none, none, none, none, none, none⟩

/-- The recommendation that src/risk_profiler.py produces for AAPL under
`mdAAPL` and the score-5 profile (concrete fixture). -/
def recAAPL : RootProfiler.StockRecommendation :=
  ⟨"AAPL", "Apple", .TECHNOLOGY, 5, 9/10, 3/20,
   "Risk level (5/10) aligns well with your profile. Technology sector matches your preferences. Strong technical and fundamental indicators",
   100, 110⟩

/-- The recommendation that src/alpaca_bot/risk_profiler.py produces for PG
under the score-5 profile when KO is held (concrete fixture). -/
def recPG : AlpacaBot.StockRecommendation :=
  ⟨"PG", "Procter & Gamble", .CONSUMER_STAPLES, 2, 4/5, 1/10,
   "Matches your moderate high risk profile", 100, 110⟩

/-- Ten equal-value positions in one stock (hence one sector): the binary64
accumulation of their ten weights of 0.1 falls one unit in the last place short
of 1 (concrete fixture). -/
def tenAAPL : List Position := List.replicate 10 ⟨"AAPL", 1⟩

/-
Lemmas.
-/

theorem ratFloor_eq_intFloor (q : ℚ) : q.floor = ⌊q⌋ := by
  rw [Rat.floor_def', Rat.floor_def]

theorem roundHalfEven_intCast (n : ℤ) : roundHalfEven (n : ℚ) = n := by
  unfold roundHalfEven
  rw [ratFloor_eq_intFloor, Int.floor_intCast]
  norm_num

theorem pyRoundTo_intCast (n : ℕ) (m : ℤ) : pyRoundTo n (m : ℚ) = m := by
  unfold pyRoundTo
  have h : ((m : ℚ) * 10 ^ n) = ((m * 10 ^ n : ℤ) : ℚ) := by push_cast; ring
  rw [h, roundHalfEven_intCast]
  push_cast
  field_simp

theorem final_score_bounds (rt ex th : ℤ) :
    1 ≤ AlpacaBot.final_score rt ex th ∧ AlpacaBot.final_score rt ex th ≤ 10 :=
  ⟨le_max_left 1 _, max_le (by norm_num) (min_le_left 10 _)⟩

theorem risk_profiles_lookup_exists (s : ℤ) (h1 : 1 ≤ s) (h10 : s ≤ 10) :
    ∃ e, AlpacaBot.risk_profiles.lookup s = some e ∧
      ((AlpacaBot.risk_profiles.lookup s).getD AlpacaBot.profile5).level = e.level := by
  interval_cases s <;> exact ⟨_, rfl, rfl⟩

theorem alpaca_mem_rec {p : AlpacaBot.RiskProfile} {pos : List String}
    {rec : AlpacaBot.StockRecommendation}
    (h : rec ∈ AlpacaBot.get_stock_recommendations p pos) :
    ∃ e ∈ AlpacaBot.suitable_stocks p pos,
      rec.symbol = e.1 ∧ rec.risk_rating = e.2.risk ∧ rec.sector = e.2.sector ∧
      rec.recommendation_strength =
        max (1/10) (min 1 (((p.score : ℚ) - (e.2.risk : ℚ) + 5) / 10)) ∧
      rec.target_allocation = min p.max_position_size (1/10) := by
  unfold AlpacaBot.get_stock_recommendations at h
  obtain ⟨e, he, rfl⟩ := List.mem_map.mp h
  exact ⟨e, (List.take_sublist 5 _).subset he, rfl, rfl, rfl, rfl, rfl⟩

theorem alpaca_suitable_spec {p : AlpacaBot.RiskProfile} {pos : List String}
    {e : String × AlpacaBot.StockInfo} (h : e ∈ AlpacaBot.suitable_stocks p pos) :
    e ∈ AlpacaBot.stock_universe ∧ e.1 ∉ pos ∧ e.2.risk ≤ p.score + 2 ∧
      e.2.sector ∉ p.avoid_sectors := by
  unfold AlpacaBot.suitable_stocks at h
  have h' := List.mem_filter.mp h
  have hb := h'.2
  simp only [Bool.and_eq_true, Bool.not_eq_true', Bool.or_eq_true, decide_eq_true_eq,
    List.contains, List.elem_eq_mem, decide_eq_false_iff_not, List.isEmpty_eq_true] at hb
  refine ⟨h'.1, hb.1, hb.2.1, ?_⟩
  rcases hb.2.2 with hempty | hnot
  · rw [hempty]; simp
  · exact hnot

theorem root_compatible_spec {p : RootProfiler.RiskProfile} {owned : List String}
    {excl : Bool} {e : String × RootProfiler.StockInfo}
    (h : e ∈ RootProfiler.compatible_stocks p owned excl) :
    e ∈ RootProfiler.stock_universe ∧ ¬(excl = true ∧ e.1 ∈ owned) ∧
      |e.2.risk - p.score| ≤ 2 ∧ e.2.sector ∉ p.avoid_sectors := by
  unfold RootProfiler.compatible_stocks at h
  have h' := List.mem_filter.mp h
  have hb := h'.2
  simp only [RootProfiler.is_risk_compatible, Bool.and_eq_true, Bool.not_eq_true',
    Bool.or_eq_true, decide_eq_true_eq, List.contains, List.elem_eq_mem,
    decide_eq_false_iff_not, List.isEmpty_eq_true, Bool.and_eq_false_iff] at hb
  refine ⟨h'.1, ?_, hb.2.1, ?_⟩
  · rintro ⟨he, hm⟩
    rcases hb.1 with hf | hnm
    · rw [he] at hf; cases hf
    · exact hnm hm
  · rcases hb.2.2 with hempty | hnot
    · rw [hempty]; simp
    · exact hnot

theorem root_strength_bounds (d : RootProfiler.StockInfo) (p : RootProfiler.RiskProfile)
    (m : RootProfiler.MarketData) :
    0 ≤ RootProfiler.calculate_recommendation_strength d p m ∧
      RootProfiler.calculate_recommendation_strength d p m ≤ 1 := by
  unfold RootProfiler.calculate_recommendation_strength
  exact ⟨le_max_left 0 _, max_le zero_le_one (min_le_left 1 _)⟩

theorem root_create_spec {md : String → Option RootProfiler.MarketData} {sym : String}
    {d : RootProfiler.StockInfo} {p : RootProfiler.RiskProfile}
    {rec : RootProfiler.StockRecommendation}
    (h : RootProfiler.create_stock_recommendation md sym d p = some rec) :
    rec.symbol = sym ∧ rec.risk_rating = d.risk ∧ rec.sector = d.sector ∧
      0 ≤ rec.recommendation_strength ∧ rec.recommendation_strength ≤ 1 ∧
      rec.target_allocation ≤ p.max_position_size := by
  unfold RootProfiler.create_stock_recommendation at h
  cases hmd : md sym with
  | none => rw [hmd] at h; cases h
  | some dd =>
    rw [hmd] at h
    dsimp only at h
    by_cases hl : dd.histLen = 0
    · rw [if_pos hl] at h; cases h
    · rw [if_neg hl] at h
      obtain rfl : _ = rec := Option.some_inj.mp h
      refine ⟨rfl, rfl, rfl, (root_strength_bounds d p dd).1, (root_strength_bounds d p dd).2, ?_⟩
      exact min_le_left _ _

theorem root_mem_rec {md : String → Option RootProfiler.MarketData}
    {p : RootProfiler.RiskProfile} {port : List Position} {excl : Bool}
    {rec : RootProfiler.StockRecommendation}
    (h : rec ∈ RootProfiler.get_stock_recommendations md p port excl) :
    ∃ e ∈ RootProfiler.compatible_stocks p (RootProfiler.owned_symbols port excl) excl,
      RootProfiler.create_stock_recommendation md e.1 e.2 p = some rec := by
  unfold RootProfiler.get_stock_recommendations at h
  have h1 := (List.take_sublist 10 _).subset h
  rw [(List.perm_insertionSort RootProfiler.strengthGE _).mem_iff] at h1
  unfold RootProfiler.recommendation_candidates at h1
  obtain ⟨e, he, hfe⟩ := List.mem_filterMap.mp h1
  exact ⟨e, he, hfe⟩

theorem filter_orderedInsert_strength (q : ℚ) (a : RootProfiler.StockRecommendation) :
    ∀ l : List RootProfiler.StockRecommendation,
      (l.orderedInsert RootProfiler.strengthGE a).filter
          (fun x => decide (x.recommendation_strength = q)) =
        if a.recommendation_strength = q then
          a :: l.filter (fun x => decide (x.recommendation_strength = q))
        else l.filter (fun x => decide (x.recommendation_strength = q))
  | [] => by
      by_cases hq : a.recommendation_strength = q <;>
        simp [List.orderedInsert, List.filter, hq]
  | b :: t => by
      by_cases hr : RootProfiler.strengthGE a b
      · by_cases hq : a.recommendation_strength = q <;>
          simp [List.orderedInsert, if_pos hr, List.filter_cons, hq]
      · have hab : a.recommendation_strength < b.recommendation_strength := by
          have : ¬ (b.recommendation_strength ≤ a.recommendation_strength) := hr
          exact not_le.mp this
        by_cases hq : a.recommendation_strength = q
        · have hbq : ¬ (b.recommendation_strength = q) := by
            rw [← hq]; exact (ne_of_gt hab)
          simp [List.orderedInsert, if_neg hr, List.filter_cons, hbq, hq,
            filter_orderedInsert_strength q a t]
        · simp [List.orderedInsert, if_neg hr, List.filter_cons, hq,
            filter_orderedInsert_strength q a t]

theorem filter_insertionSort_strength (q : ℚ) :
    ∀ l : List RootProfiler.StockRecommendation,
      (l.insertionSort RootProfiler.strengthGE).filter
          (fun x => decide (x.recommendation_strength = q)) =
        l.filter (fun x => decide (x.recommendation_strength = q))
  | [] => rfl
  | a :: t => by
      by_cases hq : a.recommendation_strength = q <;>
        simp [List.insertionSort, filter_orderedInsert_strength q a,
          filter_insertionSort_strength q t, List.filter_cons, hq]

theorem filter_take_isPrefix {α : Type} (p : α → Bool) (l : List α) (n : ℕ) :
    (l.take n).filter p <+: l.filter p :=
  ⟨(l.drop n).filter p, by rw [← List.filter_append, List.take_append_drop]⟩

/-
Claim theorems.
-/

/-- C1: for every input whose three answers (after the `.get` defaults) lie in
[1,10], `assess_risk_profile` returns a score in [1,10] and a profile whose
`level` equals the level of the static ten-entry table's entry for that score;
and the answers (9, 8, 9) give a weighted value that rounds to 8.7 at one
decimal (the binary64 sum differs from 87/10 only by the representation error),
score 9, and level VERY_AGGRESSIVE. -/
theorem C1_assess_score_and_level :
    (∀ u : AlpacaBot.UserData,
      1 ≤ u.q1_risk_tolerance.getD 5 → u.q1_risk_tolerance.getD 5 ≤ 10 →
      1 ≤ u.q2_investment_experience.getD 5 → u.q2_investment_experience.getD 5 ≤ 10 →
      1 ≤ u.q3_time_horizon.getD 5 → u.q3_time_horizon.getD 5 ≤ 10 →
      (1 ≤ (AlpacaBot.assess_risk_profile u).1 ∧ (AlpacaBot.assess_risk_profile u).1 ≤ 10) ∧
      ∃ e, AlpacaBot.risk_profiles.lookup (AlpacaBot.assess_risk_profile u).1 = some e ∧
        (AlpacaBot.assess_risk_profile u).2.level = e.level) ∧
    (pyRoundTo 1 (AlpacaBot.weighted_score 9 8 9) = 87/10 ∧
     (AlpacaBot.assess_risk_profile u989).1 = 9 ∧
     (AlpacaBot.assess_risk_profile u989).2.level = RiskLevel.VERY_AGGRESSIVE) := by
  constructor
  · intro u _ _ _ _ _ _
    refine ⟨⟨(final_score_bounds _ _ _).1, (final_score_bounds _ _ _).2⟩, ?_⟩
    exact risk_profiles_lookup_exists _ (final_score_bounds _ _ _).1 (final_score_bounds _ _ _).2
  · exact ⟨by decide, by decide, by decide⟩

theorem C1_assess_score_and_level_witness :
    (1 : ℤ) ≤ 9 ∧
    ((1 ≤ (AlpacaBot.assess_risk_profile u989).1 ∧ (AlpacaBot.assess_risk_profile u989).1 ≤ 10) ∧
     ∃ e, AlpacaBot.risk_profiles.lookup (AlpacaBot.assess_risk_profile u989).1 = some e ∧
       (AlpacaBot.assess_risk_profile u989).2.level = e.level) :=
  ⟨by norm_num,
   C1_assess_score_and_level.1 u989 (by decide) (by decide) (by decide) (by decide)
     (by decide) (by decide)⟩

/-- C3 counterexample: at answers (3, 2, 2) the binary64 weighted sum is exactly
2.5 and the code's score is 2 (Python `round` is ties-to-even), while the
claimed round-half-up score is 3 — the claim fails at this input. -/
theorem C3_counterexample_half_rounds_down :
    (AlpacaBot.assess_risk_profile u322).1 = 2 ∧
    AlpacaBot.weighted_score 3 2 2 = 5/2 ∧
    specScoreRoundHalfUp 3 2 2 = 3 ∧
    (AlpacaBot.assess_risk_profile u322).1 ≠ specScoreRoundHalfUp 3 2 2 := by decide

/-- C3 amended: on [1,10]³ the returned score is the weighted sum evaluated in
binary64 arithmetic, rounded to the nearest integer with ties to even, then
clamped to [1,10].  It coincides with the ties-to-even rounding of the exact
weighted sum except at (4,9,4), (6,9,9) and (8,9,4), where the double
evaluation falls just below the exact half 5.5 resp. 7.5 and the score is one
less; an exact tie such as 2.5 at (3,2,2) rounds to the even neighbour 2,
never up to 3. -/
theorem C3_amended_rounding : ∀ a < 10, ∀ b < 10, ∀ c < 10,
    scoreAgreesWithExactRounding ((a : ℕ) + 1) ((b : ℕ) + 1) ((c : ℕ) + 1) = true := by decide

theorem C3_amended_rounding_witness : scoreAgreesWithExactRounding 3 2 2 = true := by
  have h := C3_amended_rounding 2 (by decide) 1 (by decide) 1 (by decide)
  exact_mod_cast h

/-- C8: a missing questionnaire answer is replaced by the midpoint 5 — assessing
any input equals assessing the same input with every absent answer field set to
5 — and the all-missing input gives exactly the same (score, profile) pair as
explicit answers (5, 5, 5). -/
theorem C8_missing_answers_default_to_midpoint :
    (∀ u : AlpacaBot.UserData,
      AlpacaBot.assess_risk_profile u =
        AlpacaBot.assess_risk_profile
          { u with
            q1_risk_tolerance := some (u.q1_risk_tolerance.getD 5),
            q2_investment_experience := some (u.q2_investment_experience.getD 5),
            q3_time_horizon := some (u.q3_time_horizon.getD 5) }) ∧
    AlpacaBot.assess_risk_profile ⟨none, none, none, none, none, none, none, none, none⟩ =
      AlpacaBot.assess_risk_profile ⟨some 5, some 5, some 5, none, none, none, none, none, none⟩ := by
  constructor
  · intro u
    simp [AlpacaBot.assess_risk_profile]
  · decide

/-- C2 counterexample: the alpaca_bot variant filters only `risk ≤ score + 2`,
not `|risk − score| ≤ 2`: with the score-9 template profile and no holdings it
recommends KO (risk rating 2, seven levels below the score). -/
theorem C2_counterexample_lower_risk_kept :
    ¬ (∀ rec ∈ AlpacaBot.get_stock_recommendations AlpacaBot.profile9 [],
        |rec.risk_rating - AlpacaBot.profile9.score| ≤ 2) := by decide

/-- C2 amended: in src/risk_profiler.py every returned recommendation comes from
a universe entry whose risk rating is within 2 of the profile score (ties at
exactly 2 included) and whose sector is not avoided; the alpaca_bot variant
only enforces the one-sided bound `risk ≤ score + 2` (see the counterexample). -/
theorem C2_amended_risk_window :
    ∀ (md : String → Option RootProfiler.MarketData) (p : RootProfiler.RiskProfile)
      (port : List Position),
      ∀ rec ∈ RootProfiler.get_stock_recommendations md p port true,
        |rec.risk_rating - p.score| ≤ 2 ∧ rec.sector ∉ p.avoid_sectors ∧
        ∃ e ∈ RootProfiler.stock_universe,
          rec.symbol = e.1 ∧ rec.risk_rating = e.2.risk ∧ rec.sector = e.2.sector := by
  intro md p port rec h
  obtain ⟨e, he, hc⟩ := root_mem_rec h
  obtain ⟨hu, _, hrw, hav⟩ := root_compatible_spec he
  obtain ⟨hs, hr, hsec, _, _, _⟩ := root_create_spec hc
  rw [hr, hsec]
  exact ⟨hrw, hav, e, hu, hs, rfl, rfl⟩

theorem C2_amended_risk_window_witness :
    |recAAPL.risk_rating - RootProfiler.profile5.score| ≤ 2 ∧
    recAAPL.sector ∉ RootProfiler.profile5.avoid_sectors ∧
    ∃ e ∈ RootProfiler.stock_universe,
      recAAPL.symbol = e.1 ∧ recAAPL.risk_rating = e.2.risk ∧ recAAPL.sector = e.2.sector :=
  C2_amended_risk_window mdAAPL RootProfiler.profile5 [⟨"KO", 1⟩] recAAPL (by decide)

/-- C4 counterexample: the alpaca_bot variant never sorts — with the score-7
template profile and the six lowest-risk symbols held, it returns TSLA (strength
0.3) before NVDA and AMD (strength 0.4), so the output is not non-increasing in
`recommendation_strength`. -/
theorem C4_counterexample_not_sorted :
    ¬ (AlpacaBot.get_stock_recommendations AlpacaBot.profile7
          ["KO", "PG", "JNJ", "MSFT", "AAPL", "JPM"]).Sorted
        (fun a b => b.recommendation_strength ≤ a.recommendation_strength) := by decide

/-- C4 amended: src/risk_profiler.py sorts with Python's stable `list.sort`
(descending by strength): the result is sorted non-increasing by
`recommendation_strength`, and for every strength value the entries carrying it
appear as a prefix-order-preserving subsequence of the unsorted candidate list,
which is in stock-universe iteration order — i.e. ties keep universe order.
The alpaca_bot variant does not sort (see the counterexample). -/
theorem C4_amended_sorted_stable :
    ∀ (md : String → Option RootProfiler.MarketData) (p : RootProfiler.RiskProfile)
      (port : List Position) (excl : Bool),
      (RootProfiler.get_stock_recommendations md p port excl).Sorted RootProfiler.strengthGE ∧
      ∀ q : ℚ,
        ((RootProfiler.get_stock_recommendations md p port excl).filter
            fun r => decide (r.recommendation_strength = q)) <+:
          ((RootProfiler.recommendation_candidates md p port excl).filter
            fun r => decide (r.recommendation_strength = q)) := by
  intro md p port excl
  constructor
  · exact List.Pairwise.sublist (List.take_sublist 10 _)
      (List.sorted_insertionSort RootProfiler.strengthGE _)
  · intro q
    have hstable := filter_insertionSort_strength q (RootProfiler.recommendation_candidates
      md p port excl)
    unfold RootProfiler.get_stock_recommendations
    rw [← hstable]
    exact filter_take_isPrefix _ _ 10

/-- C5: neither implementation ever recommends a symbol that is already held
(owned-exclusion enabled, the default in src/risk_profiler.py and the only
behaviour of the alpaca_bot variant). -/
theorem C5_owned_symbols_excluded :
    (∀ (p : AlpacaBot.RiskProfile) (pos : List String),
       ∀ rec ∈ AlpacaBot.get_stock_recommendations p pos, rec.symbol ∉ pos) ∧
    (∀ (md : String → Option RootProfiler.MarketData) (p : RootProfiler.RiskProfile)
       (port : List Position),
       ∀ rec ∈ RootProfiler.get_stock_recommendations md p port true,
         rec.symbol ∉ port.map (·.symbol)) := by
  constructor
  · intro p pos rec h
    obtain ⟨e, he, hsym, _⟩ := alpaca_mem_rec h
    obtain ⟨_, hnot, _, _⟩ := alpaca_suitable_spec he
    rw [hsym]; exact hnot
  · intro md p port rec h
    obtain ⟨e, he, hc⟩ := root_mem_rec h
    obtain ⟨_, hnot, _, _⟩ := root_compatible_spec he
    obtain ⟨hs, _⟩ := root_create_spec hc
    rw [hs]
    rcases heq : port with _ | ⟨p0, ps⟩
    · simp
    · intro hmem
      apply hnot
      refine ⟨rfl, ?_⟩
      unfold RootProfiler.owned_symbols
      rw [if_pos ⟨by simp [heq], rfl⟩]
      rw [heq]
      exact hmem

theorem C5_owned_symbols_excluded_witness :
    recPG.symbol ∉ ["KO"] ∧ recAAPL.symbol ∉ ([⟨"KO", 1⟩] : List Position).map (·.symbol) :=
  ⟨C5_owned_symbols_excluded.1 AlpacaBot.profile5 ["KO"] recPG (by decide),
   C5_owned_symbols_excluded.2 mdAAPL RootProfiler.profile5 [⟨"KO", 1⟩] recAAPL (by decide)⟩

/-- C6: in both implementations every returned recommendation has
`recommendation_strength` in [0, 1] and `target_allocation` bounded by the
profile's `max_position_size`. -/
theorem C6_strength_and_allocation_bounds :
    (∀ (p : AlpacaBot.RiskProfile) (pos : List String),
       ∀ rec ∈ AlpacaBot.get_stock_recommendations p pos,
         0 ≤ rec.recommendation_strength ∧ rec.recommendation_strength ≤ 1 ∧
         rec.target_allocation ≤ p.max_position_size) ∧
    (∀ (md : String → Option RootProfiler.MarketData) (p : RootProfiler.RiskProfile)
       (port : List Position) (excl : Bool),
       ∀ rec ∈ RootProfiler.get_stock_recommendations md p port excl,
         0 ≤ rec.recommendation_strength ∧ rec.recommendation_strength ≤ 1 ∧
         rec.target_allocation ≤ p.max_position_size) := by
  constructor
  · intro p pos rec h
    obtain ⟨e, _, _, _, _, hstr, hta⟩ := alpaca_mem_rec h
    refine ⟨?_, ?_, ?_⟩
    · rw [hstr]
      exact le_trans (by norm_num) (le_max_left (1/10) _)
    · rw [hstr]
      exact max_le (by norm_num) (min_le_left 1 _)
    · rw [hta]
      exact min_le_left _ _
  · intro md p port excl rec h
    obtain ⟨e, _, hc⟩ := root_mem_rec h
    obtain ⟨_, _, _, h0, h1, hta⟩ := root_create_spec hc
    exact ⟨h0, h1, hta⟩

theorem C6_strength_and_allocation_bounds_witness :
    (0 ≤ recPG.recommendation_strength ∧ recPG.recommendation_strength ≤ 1 ∧
     recPG.target_allocation ≤ AlpacaBot.profile5.max_position_size) ∧
    (0 ≤ recAAPL.recommendation_strength ∧ recAAPL.recommendation_strength ≤ 1 ∧
     recAAPL.target_allocation ≤ RootProfiler.profile5.max_position_size) :=
  ⟨C6_strength_and_allocation_bounds.1 AlpacaBot.profile5 ["KO"] recPG (by decide),
   C6_strength_and_allocation_bounds.2 mdAAPL RootProfiler.profile5 [⟨"KO", 1⟩] true recAAPL
     (by decide)⟩

/-- C7 counterexample: neither implementation takes a `limit` argument — the
truncation is hard-coded (10 in src/risk_profiler.py, 5 in the alpaca_bot
variant).  With the score-5 profile, no holdings and market data available for
every symbol, src/risk_profiler.py returns 10 entries, so a "call with
limit=5" is impossible and the result exceeds 5 entries. -/
theorem C7_counterexample_hardcoded_ten :
    (RootProfiler.get_stock_recommendations mdConst RootProfiler.profile5 [] true).length = 10 ∧
    ¬ ((RootProfiler.get_stock_recommendations mdConst RootProfiler.profile5 [] true).length ≤ 5) := by
  decide

/-- C7 amended: the result length is bounded by the hard-coded truncation (5 in
the alpaca_bot variant, 10 in src/risk_profiler.py), and when no universe
symbol survives the owned/risk/sector filters the result is the empty list
rather than an error. -/
theorem C7_amended_limits :
    (∀ (p : AlpacaBot.RiskProfile) (pos : List String),
       (AlpacaBot.get_stock_recommendations p pos).length ≤ 5 ∧
       (AlpacaBot.suitable_stocks p pos = [] →
         AlpacaBot.get_stock_recommendations p pos = [])) ∧
    (∀ (md : String → Option RootProfiler.MarketData) (p : RootProfiler.RiskProfile)
       (port : List Position) (excl : Bool),
       (RootProfiler.get_stock_recommendations md p port excl).length ≤ 10 ∧
       (RootProfiler.compatible_stocks p (RootProfiler.owned_symbols port excl) excl = [] →
         RootProfiler.get_stock_recommendations md p port excl = [])) := by
  constructor
  · intro p pos
    constructor
    · unfold AlpacaBot.get_stock_recommendations
      rw [List.length_map, List.length_take]
      exact min_le_left 5 _
    · intro hempty
      unfold AlpacaBot.get_stock_recommendations
      rw [hempty]
      rfl
  · intro md p port excl
    constructor
    · unfold RootProfiler.get_stock_recommendations
      rw [List.length_take]
      exact min_le_left 10 _
    · intro hempty
      unfold RootProfiler.get_stock_recommendations RootProfiler.recommendation_candidates
      rw [hempty]
      rfl

theorem C7_amended_limits_witness :
    AlpacaBot.get_stock_recommendations AlpacaBot.profile1
        ["KO", "PG", "JNJ", "MSFT", "AAPL", "JPM", "TSLA", "NVDA", "AMD"] = [] ∧
    RootProfiler.get_stock_recommendations mdConst RootProfiler.profile5
        (RootProfiler.stock_universe.map fun e => ⟨e.1, 1⟩) true = [] :=
  ⟨(C7_amended_limits.1 AlpacaBot.profile1 _).2 (by decide),
   (C7_amended_limits.2 mdConst RootProfiler.profile5 _ true).2 (by decide)⟩

theorem dictAdd_nil (k : String) (v : ℚ) : dictAdd [] k v = [(k, fl (0 + v))] := by
  simp [dictAdd]

theorem fl_one : fl (1 : ℚ) = 1 := by decide

theorem fl_zero_add_one : fl ((0 : ℚ) + 1) = 1 := by decide

theorem weights_sum_eq_one (l : List Position) (total : ℚ) (h : total ≠ 0)
    (htot : (l.map (·.market_value)).sum = total) :
    (l.map fun p => p.market_value / total).sum = 1 := by
  have hrw : (l.map fun p => p.market_value / total).sum
      = (l.map (·.market_value)).sum / total := by
    simp only [div_eq_mul_inv]
    exact List.sum_map_mul_right l (·.market_value) total⁻¹
  rw [hrw, htot, div_self h]

theorem lookup_mem {β : Type} :
    ∀ {l : List (String × β)} {k : String} {b : β},
      List.lookup k l = some b → ∃ a, (a, b) ∈ l
  | [], k, b, h => by simp at h
  | (a, c) :: t, k, b, h => by
      rw [List.lookup] at h
      cases hk : (k == a) with
      | true =>
        rw [hk] at h
        dsimp only at h
        exact ⟨a, by rw [← Option.some_inj.mp h]; exact List.mem_cons_self (a, c) t⟩
      | false =>
        rw [hk] at h
        dsimp only at h
        obtain ⟨a', ha'⟩ := lookup_mem h
        exact ⟨a', List.mem_cons_of_mem _ ha'⟩

theorem alpaca_stock_info_risk_bounds (sym : String) :
    1 ≤ (AlpacaBot.stock_info sym).risk ∧ (AlpacaBot.stock_info sym).risk ≤ 10 := by
  unfold AlpacaBot.stock_info
  cases hlk : AlpacaBot.stock_universe.lookup sym with
  | none => simp
  | some info =>
    obtain ⟨a, ha⟩ := lookup_mem hlk
    have hall : ∀ e ∈ AlpacaBot.stock_universe, 1 ≤ e.2.risk ∧ e.2.risk ≤ 10 := by decide
    simpa using hall (a, info) ha

theorem root_stock_info_risk_bounds (sym : String) :
    1 ≤ (RootProfiler.stock_info sym).risk ∧ (RootProfiler.stock_info sym).risk ≤ 10 := by
  unfold RootProfiler.stock_info
  cases hlk : RootProfiler.stock_universe.lookup sym with
  | none => simp
  | some info =>
    obtain ⟨a, ha⟩ := lookup_mem hlk
    have hall : ∀ e ∈ RootProfiler.stock_universe, 1 ≤ e.2.risk ∧ e.2.risk ≤ 10 := by decide
    simpa using hall (a, info) ha

theorem alpaca_stock_info_fl_risk (sym : String) :
    fl ((AlpacaBot.stock_info sym).risk : ℚ) = ((AlpacaBot.stock_info sym).risk : ℚ) := by
  unfold AlpacaBot.stock_info
  cases hlk : AlpacaBot.stock_universe.lookup sym with
  | none => simp only [Option.getD_none]; decide
  | some info =>
    obtain ⟨a, ha⟩ := lookup_mem hlk
    have hall : ∀ e ∈ AlpacaBot.stock_universe,
        fl (e.2.risk : ℚ) = (e.2.risk : ℚ) := by decide
    simpa using hall (a, info) ha

theorem root_stock_info_fl_risk (sym : String) :
    fl ((RootProfiler.stock_info sym).risk : ℚ) = ((RootProfiler.stock_info sym).risk : ℚ) := by
  unfold RootProfiler.stock_info
  cases hlk : RootProfiler.stock_universe.lookup sym with
  | none => simp only [Option.getD_none]; decide
  | some info =>
    obtain ⟨a, ha⟩ := lookup_mem hlk
    have hall : ∀ e ∈ RootProfiler.stock_universe,
        fl (e.2.risk : ℚ) = (e.2.risk : ℚ) := by decide
    simpa using hall (a, info) ha

theorem exact_weighted_risk_bounds (riskOf : String → ℤ)
    (hrisk : ∀ sym, 1 ≤ riskOf sym ∧ riskOf sym ≤ 10)
    (l : List Position) (hpos : ∀ p ∈ l, 0 ≤ p.market_value)
    (total : ℚ) (htot : (l.map (·.market_value)).sum = total) (h0 : 0 < total) :
    1 ≤ exactWeightedRisk riskOf l total ∧ exactWeightedRisk riskOf l total ≤ 10 := by
  unfold exactWeightedRisk
  have hw : ∀ p ∈ l, 0 ≤ p.market_value / total :=
    fun p hp => div_nonneg (hpos p hp) h0.le
  have hsum : (l.map fun p => p.market_value / total).sum = 1 :=
    weights_sum_eq_one l total (ne_of_gt h0) htot
  constructor
  · have hle : (l.map fun p => 1 * (p.market_value / total)).sum ≤
        (l.map fun p => (riskOf p.symbol : ℚ) * (p.market_value / total)).sum := by
      refine List.sum_le_sum fun p hp => ?_
      refine mul_le_mul_of_nonneg_right ?_ (hw p hp)
      exact_mod_cast (hrisk p.symbol).1
    calc (1 : ℚ) = 1 * (l.map fun p => p.market_value / total).sum := by rw [hsum, mul_one]
      _ = (l.map fun p => 1 * (p.market_value / total)).sum :=
        (List.sum_map_mul_left l (fun p => p.market_value / total) 1).symm
      _ ≤ _ := hle
  · have hle : (l.map fun p => (riskOf p.symbol : ℚ) * (p.market_value / total)).sum ≤
        (l.map fun p => 10 * (p.market_value / total)).sum := by
      refine List.sum_le_sum fun p hp => ?_
      refine mul_le_mul_of_nonneg_right ?_ (hw p hp)
      exact_mod_cast (hrisk p.symbol).2
    calc (l.map fun p => (riskOf p.symbol : ℚ) * (p.market_value / total)).sum
        ≤ (l.map fun p => 10 * (p.market_value / total)).sum := hle
      _ = 10 * (l.map fun p => p.market_value / total).sum :=
        List.sum_map_mul_left l (fun p => p.market_value / total) 10
      _ = 10 := by rw [hsum, mul_one]

theorem pyRoundTo_zero (n : ℕ) : pyRoundTo n 0 = 0 := by
  have h := pyRoundTo_intCast n 0
  simpa using h

theorem alpaca_portfolio_totals_single (sym : String) (v : ℚ) (hv : v ≠ 0) :
    AlpacaBot.portfolio_totals [⟨sym, v⟩] v =
      (((AlpacaBot.stock_info sym).risk : ℚ), [((AlpacaBot.stock_info sym).sector.value, 1)]) := by
  unfold AlpacaBot.portfolio_totals
  simp only [List.foldl_cons, List.foldl_nil, portfolioStep]
  rw [div_self hv, fl_one, mul_one, alpaca_stock_info_fl_risk, zero_add,
    alpaca_stock_info_fl_risk, dictAdd_nil, fl_zero_add_one]

theorem root_portfolio_totals_single (sym : String) (v : ℚ) (hv : v ≠ 0) :
    RootProfiler.portfolio_totals [⟨sym, v⟩] v =
      (((RootProfiler.stock_info sym).risk : ℚ),
       [((RootProfiler.stock_info sym).sector.value, 1)]) := by
  unfold RootProfiler.portfolio_totals
  simp only [List.foldl_cons, List.foldl_nil, portfolioStep]
  rw [div_self hv, fl_one, mul_one, root_stock_info_fl_risk, zero_add,
    root_stock_info_fl_risk, dictAdd_nil, fl_zero_add_one]

theorem flSum_single (sym : String) (v : ℚ) (hfl : fl v = v) :
    flSum (([⟨sym, v⟩] : List Position).map (·.market_value)) = v := by
  simp only [List.map_cons, List.map_nil, flSum, List.foldl_cons, List.foldl_nil, zero_add]
  exact hfl

theorem root_diversification_single (s : String) :
    RootProfiler.calculate_diversification_score [(s, 1)] = 0 := by
  unfold RootProfiler.calculate_diversification_score
  rw [if_neg (List.cons_ne_nil _ _)]
  simp only [List.map_cons, List.map_nil]
  decide

/-- C9 counterexample: ten equal positive positions in one stock (one sector).
The binary64 accumulation of the ten weights `1/10` reaches only
`1 − 2⁻⁵³`, so src/alpaca_bot/risk_profiler.py returns the raw diversification
`2⁻⁵³ = 1/9007199254740992`, not 0 — the claim fails for this single-sector
portfolio. -/
theorem C9_counterexample_float_drift :
    tenAAPL ≠ [] ∧ (∀ p ∈ tenAAPL, 0 < p.market_value) ∧
    (∀ p ∈ tenAAPL, (AlpacaBot.stock_info p.symbol).sector.value = "Technology") ∧
    (AlpacaBot.calculate_portfolio_risk_score tenAAPL).diversification =
      1 / 9007199254740992 ∧
    (AlpacaBot.calculate_portfolio_risk_score tenAAPL).diversification ≠ 0 := by
  decide

/-- C9 amended: for a one-holding portfolio with positive binary64 market value,
the single weight is computed as `fl(v/v) = 1` exactly, so the returned score
equals the symbol's static risk rating exactly (universe symbol), and the
diversification is exactly 0 in both implementations (any symbol — a single
holding is trivially single-sector).  For several holdings in one sector the
accumulated float weights can miss 1 by rounding, so diversification is only
approximately 0 (see the counterexample); src/risk_profiler.py rounds the
diversification to two decimals, which absorbs that drift in the ten-position
example (final conjunct). -/
theorem C9_single_holding_and_single_sector :
    (∀ (sym : String) (info : AlpacaBot.StockInfo) (v : ℚ),
       AlpacaBot.stock_universe.lookup sym = some info → fl v = v → 0 < v →
       (AlpacaBot.calculate_portfolio_risk_score [⟨sym, v⟩]).score = (info.risk : ℚ)) ∧
    (∀ (sym : String) (info : RootProfiler.StockInfo) (v : ℚ),
       RootProfiler.stock_universe.lookup sym = some info → fl v = v → 0 < v →
       (RootProfiler.calculate_portfolio_risk_score [⟨sym, v⟩]).score = (info.risk : ℚ)) ∧
    (∀ (sym : String) (v : ℚ), fl v = v → 0 < v →
       (AlpacaBot.calculate_portfolio_risk_score [⟨sym, v⟩]).diversification = 0) ∧
    (∀ (sym : String) (v : ℚ), fl v = v → 0 < v →
       (RootProfiler.calculate_portfolio_risk_score [⟨sym, v⟩]).diversification = 0) ∧
    (RootProfiler.calculate_portfolio_risk_score tenAAPL).diversification = 0 := by
  refine ⟨?_, ?_, ?_, ?_, by decide⟩
  · intro sym info v hlk hfl hv
    have hv0 : v ≠ 0 := ne_of_gt hv
    have hinfo : AlpacaBot.stock_info sym = info := by
      unfold AlpacaBot.stock_info; rw [hlk]; rfl
    simp only [AlpacaBot.calculate_portfolio_risk_score]
    rw [if_neg (List.cons_ne_nil _ _), flSum_single sym v hfl, if_neg hv0,
      alpaca_portfolio_totals_single sym v hv0]
    show fl (pyRoundTo 1 ((AlpacaBot.stock_info sym).risk : ℚ)) = _
    rw [pyRoundTo_intCast, alpaca_stock_info_fl_risk, hinfo]
  · intro sym info v hlk hfl hv
    have hv0 : v ≠ 0 := ne_of_gt hv
    have hinfo : RootProfiler.stock_info sym = info := by
      unfold RootProfiler.stock_info; rw [hlk]; rfl
    simp only [RootProfiler.calculate_portfolio_risk_score]
    rw [if_neg (List.cons_ne_nil _ _), flSum_single sym v hfl, if_neg hv0,
      root_portfolio_totals_single sym v hv0]
    show fl (pyRoundTo 1 ((RootProfiler.stock_info sym).risk : ℚ)) = _
    rw [pyRoundTo_intCast, root_stock_info_fl_risk, hinfo]
  · intro sym v hfl hv
    have hv0 : v ≠ 0 := ne_of_gt hv
    simp only [AlpacaBot.calculate_portfolio_risk_score]
    rw [if_neg (List.cons_ne_nil _ _), flSum_single sym v hfl, if_neg hv0,
      alpaca_portfolio_totals_single sym v hv0]
    show (if ([((AlpacaBot.stock_info sym).sector.value, (1:ℚ))] : List (String × ℚ)) = []
          then (0:ℚ)
          else fl (1 - pyMax (([((AlpacaBot.stock_info sym).sector.value, (1:ℚ))] :
            List (String × ℚ)).map (·.2)))) = 0
    rw [if_neg (List.cons_ne_nil _ _)]
    simp only [List.map_cons, List.map_nil]
    decide
  · intro sym v hfl hv
    have hv0 : v ≠ 0 := ne_of_gt hv
    simp only [RootProfiler.calculate_portfolio_risk_score]
    rw [if_neg (List.cons_ne_nil _ _), flSum_single sym v hfl, if_neg hv0,
      root_portfolio_totals_single sym v hv0]
    show fl (pyRoundTo 2 (RootProfiler.calculate_diversification_score
        [((RootProfiler.stock_info sym).sector.value, 1)])) = 0
    rw [root_diversification_single, pyRoundTo_zero]
    decide

theorem C9_single_holding_and_single_sector_witness :
    (AlpacaBot.calculate_portfolio_risk_score [⟨"AAPL", 100⟩]).score =
      (((⟨"Apple", AlpacaBot.Sector.TECHNOLOGY, 5⟩ : AlpacaBot.StockInfo).risk : ℤ) : ℚ) ∧
    (RootProfiler.calculate_portfolio_risk_score [⟨"AAPL", 100⟩]).score =
      (((⟨"Apple", RootProfiler.Sector.TECHNOLOGY, 5⟩ : RootProfiler.StockInfo).risk : ℤ) : ℚ) ∧
    (AlpacaBot.calculate_portfolio_risk_score [⟨"AAPL", 100⟩]).diversification = 0 ∧
    (RootProfiler.calculate_portfolio_risk_score [⟨"AAPL", 100⟩]).diversification = 0 :=
  ⟨C9_single_holding_and_single_sector.1 "AAPL" ⟨"Apple", .TECHNOLOGY, 5⟩ 100 (by decide)
     (by decide) (by norm_num),
   C9_single_holding_and_single_sector.2.1 "AAPL" ⟨"Apple", .TECHNOLOGY, 5⟩ 100 (by decide)
     (by decide) (by norm_num),
   C9_single_holding_and_single_sector.2.2.1 "AAPL" 100 (by decide) (by norm_num),
   C9_single_holding_and_single_sector.2.2.2.1 "AAPL" 100 (by decide) (by norm_num)⟩

/-- C10 counterexample: the claimed [1,10] range of the unrounded weighted risk
fails twice over.  A short (negative-value) position with positive total gives
weighted risk 16 ([TSLA 100, KO −50], also reported as score 16.0); and even
with all holdings positive the binary64 accumulation can leave the range —
two COIN positions of (the doubles of) 0.4 and 18.6 give weighted risk
`10 + 2⁻⁴⁹ > 10`. -/
theorem C10_counterexample_out_of_range :
    ((AlpacaBot.calculate_portfolio_risk_score [⟨"TSLA", 100⟩, ⟨"KO", -50⟩]).score = 16 ∧
     flSum (([⟨"TSLA", 100⟩, ⟨"KO", -50⟩] : List Position).map (·.market_value)) = 50 ∧
     (AlpacaBot.portfolio_totals [⟨"TSLA", 100⟩, ⟨"KO", -50⟩] 50).1 = 16 ∧
     ¬ ((AlpacaBot.portfolio_totals [⟨"TSLA", 100⟩, ⟨"KO", -50⟩] 50).1 ≤ 10)) ∧
    (0 < fl (4/10) ∧ 0 < fl (186/10) ∧
     flSum (([⟨"COIN", fl (4/10)⟩, ⟨"COIN", fl (186/10)⟩] : List Position).map
       (·.market_value)) = 19 ∧
     (RootProfiler.portfolio_totals [⟨"COIN", fl (4/10)⟩, ⟨"COIN", fl (186/10)⟩] 19).1 =
       5629499534213121 / 562949953421312 ∧
     ¬ ((RootProfiler.portfolio_totals [⟨"COIN", fl (4/10)⟩, ⟨"COIN", fl (186/10)⟩] 19).1
        ≤ 10)) := by
  decide

/-- C10 amended: a holding whose symbol is not in the universe is silently
included with default risk 5 and sector Technology (both implementations;
demonstrated concretely on the unknown symbol ZZZZ, which contributes sector
weight 1 under "technology").  The exact value-weighted average of the
looked-up risk ratings lies in [1,10] for every portfolio of nonnegative-value
holdings with positive total; the program's binary64 accumulation tracks that
average only up to rounding error and can leave the interval (see the
counterexample: by one ulp with nonnegative holdings, and entirely with a
short position). -/
theorem C10_unknown_default_and_range :
    (∀ sym : String, AlpacaBot.stock_universe.lookup sym = none →
       (AlpacaBot.stock_info sym).risk = 5 ∧
       (AlpacaBot.stock_info sym).sector = AlpacaBot.Sector.TECHNOLOGY) ∧
    (∀ sym : String, RootProfiler.stock_universe.lookup sym = none →
       (RootProfiler.stock_info sym).risk = 5 ∧
       (RootProfiler.stock_info sym).sector = RootProfiler.Sector.TECHNOLOGY) ∧
    ((RootProfiler.calculate_portfolio_risk_score [⟨"ZZZZ", 70⟩]).score = 5 ∧
     (RootProfiler.calculate_portfolio_risk_score [⟨"ZZZZ", 70⟩]).sector_allocation =
       [("technology", 1)]) ∧
    (∀ (positions : List Position) (total : ℚ),
       (∀ p ∈ positions, 0 ≤ p.market_value) →
       (positions.map (·.market_value)).sum = total → 0 < total →
       1 ≤ exactWeightedRisk (fun s => (AlpacaBot.stock_info s).risk) positions total ∧
       exactWeightedRisk (fun s => (AlpacaBot.stock_info s).risk) positions total ≤ 10) ∧
    (∀ (portfolio : List Position) (total : ℚ),
       (∀ p ∈ portfolio, 0 ≤ p.market_value) →
       (portfolio.map (·.market_value)).sum = total → 0 < total →
       1 ≤ exactWeightedRisk (fun s => (RootProfiler.stock_info s).risk) portfolio total ∧
       exactWeightedRisk (fun s => (RootProfiler.stock_info s).risk) portfolio total ≤ 10) := by
  refine ⟨?_, ?_, by decide, ?_, ?_⟩
  · intro sym h
    unfold AlpacaBot.stock_info
    rw [h]
    exact ⟨rfl, rfl⟩
  · intro sym h
    unfold RootProfiler.stock_info
    rw [h]
    exact ⟨rfl, rfl⟩
  · intro positions total hpos htot h0
    exact exact_weighted_risk_bounds _ alpaca_stock_info_risk_bounds positions hpos total
      htot h0
  · intro portfolio total hpos htot h0
    exact exact_weighted_risk_bounds _ root_stock_info_risk_bounds portfolio hpos total
      htot h0

theorem C10_unknown_default_and_range_witness :
    ((AlpacaBot.stock_info "ZZZZ").risk = 5 ∧
     (AlpacaBot.stock_info "ZZZZ").sector = AlpacaBot.Sector.TECHNOLOGY) ∧
    (1 ≤ exactWeightedRisk (fun s => (AlpacaBot.stock_info s).risk) [⟨"AAPL", 100⟩] 100 ∧
     exactWeightedRisk (fun s => (AlpacaBot.stock_info s).risk) [⟨"AAPL", 100⟩] 100 ≤ 10) :=
  ⟨C10_unknown_default_and_range.1 "ZZZZ" (by decide),
   C10_unknown_default_and_range.2.2.2.1 [⟨"AAPL", 100⟩] 100 (by decide) (by decide)
     (by norm_num)⟩
